import Mathlib

/-!
Shallow embedding of the behaviours of the `liquidity_provision` skill
(`packages/valory/skills/liquidity_provision/behaviours.py`).

The contract-call encoders (`get_method_data`, `get_tx_data`,
`get_raw_safe_transaction_hash`) are external pure deterministic functions of
their arguments; they are embedded as the structured argument records that the
behaviours pass to them.  `crypto_registry.make(EthereumCrypto.identifier)`
creates a new key pair on every call, so the address it yields is modelled by
an entropy stream `fresh : Nat → String` giving the address produced by the
k-th `make` call of a run; a run of the behaviour consumes the stream in
program order.
-/

namespace LiquidityProvision

/-- Strategy action (`StrategyType` from the skill's payloads module). -/
inductive StrategyType where
  | WAIT
  | GO
deriving DecidableEq, Repr, Inhabited

/-- Source constant `MAX_ALLOWANCE = 2 ** 256 - 1`. -/
def MAX_ALLOWANCE : Nat := 2 ^ 256 - 1

/-- Source constant `ETHER_VALUE = 0`. -/
def ETHER_VALUE : Nat := 0

/-- Source constant `CURRENT_BLOCK_TIMESTAMP = 0`. -/
def CURRENT_BLOCK_TIMESTAMP : Nat := 0

/-- One leg of the pair inside a strategy dict:
`{"ticker", "address", "amount", "amount_min", "is_native"}`. -/
structure Token where
  ticker : String
  address : String
  amount : Nat
  amount_min : Nat
  is_native : Bool
deriving DecidableEq, Repr, Inhabited

/-- The `"base"` entry of a strategy dict: `{"address", "balance"}`. -/
structure BaseAsset where
  address : String
  balance : Nat
deriving DecidableEq, Repr, Inhabited

/-- The `"pair"` entry of a strategy dict: `{"token_a", "token_b"}`. -/
structure TokenPair where
  token_a : Token
  token_b : Token
deriving DecidableEq, Repr, Inhabited

/-- A strategy dict as produced by `get_strategy_update` and agreed on as
`PeriodState.most_voted_strategy`. -/
structure Strategy where
  action : StrategyType
  chain : String
  base : BaseAsset
  pair : TokenPair
  router_address : String
  liquidity_to_remove : Nat
deriving DecidableEq, Repr, Inhabited

/-- Structured form of the arguments the behaviours pass to the external
`get_method_data` encoder, one constructor per `method_name`; the encoder is a
pure deterministic function of these arguments (spec interface
`encode(contractId, methodName, namedArgs) -> bytes`). -/
inductive CallData where
  | swap_exact_tokens_for_ETH (amount_in amount_out_min : Nat) (path : List String)
      («to» : String) (deadline : Nat)
  | swap_exact_tokens_for_tokens (amount_in amount_out_min : Nat) (path : List String)
      («to» : String) (deadline : Nat)
  | swap_exact_ETH_for_tokens (amount_out_min : Nat) (path : List String)
      («to» : String) (deadline : Nat)
  | approve (spender : String) (value : Nat)
  | add_liquidity_ETH (token : String)
      (amount_token_desired amount_token_min amount_ETH_min : Nat)
      («to» : String) (deadline : Nat)
  | add_liquidity (token_a token_b : String)
      (amount_a_desired amount_b_desired amount_a_min amount_b_min : Nat)
      («to» : String) (deadline : Nat)
  | remove_liquidity_ETH (token : String)
      (liquidity amount_token_min amount_ETH_min : Nat)
      («to» : String) (deadline : Nat)
  | remove_liquidity (token_a token_b : String)
      (liquidity amount_a_min amount_b_min : Nat)
      («to» : String) (deadline : Nat)
deriving DecidableEq, Repr, Inhabited

/-- One encoder invocation: the `contract_address` the encoder call targets
together with the structured method call whose encoding becomes the sub-call's
`data` bytes. -/
structure EncodedCall where
  contract_address : String
  method : CallData
deriving DecidableEq, Repr, Inhabited

/-- `MultiSendOperation` from the multisend contract package. -/
inductive MultiSendOperation where
  | CALL
  | DELEGATE_CALL
deriving DecidableEq, Repr, Inhabited

/-- One entry of the `multi_send_txs` list built by the tx-hash behaviours:
`{"operation", "to", "value", "data"}`. -/
structure MultiSendTx where
  operation : MultiSendOperation
  «to» : String
  value : Nat
  data : EncodedCall
deriving DecidableEq, Repr, Inhabited

/-- Embedding of the Python expression `int(m * 0.99)` applied to a
non-negative integer minimum amount: multiplication by the 1% slippage factor
followed by truncation toward zero, stated over exact rationals
(`m * 99 / 100` in `Nat`; the source computes with the binary float literal
`0.99` before truncating). -/
def int_times_0_99 (m : Nat) : Nat := m * 99 / 100

/-- The `multi_send_txs` list built by
`EnterPoolTransactionHashBehaviour.async_act`, in program order: swap token
a, swap token b, approve token a, approve token b, add liquidity (native
variant when `token_a.is_native`).  `fresh k` is the address of the key pair
created by the k-th `crypto_registry.make(EthereumCrypto.identifier)` call of
the run. -/
def enter_pool_multi_send_txs (safe_contract_address : String) (strategy : Strategy)
    (fresh : Nat → String) : List MultiSendTx :=
  [ { operation := MultiSendOperation.CALL
      «to» := fresh 0
      value := 1
      data := { contract_address := strategy.router_address
                method :=
                  if strategy.pair.token_a.is_native then
                    CallData.swap_exact_tokens_for_ETH
                      strategy.pair.token_a.amount
                      strategy.pair.token_a.amount_min
                      [strategy.base.address, strategy.pair.token_a.address]
                      safe_contract_address
                      (CURRENT_BLOCK_TIMESTAMP + 300)
                  else
                    CallData.swap_exact_tokens_for_tokens
                      strategy.pair.token_a.amount
                      strategy.pair.token_a.amount_min
                      [strategy.base.address, strategy.pair.token_a.address]
                      safe_contract_address
                      (CURRENT_BLOCK_TIMESTAMP + 300) } },
    { operation := MultiSendOperation.CALL
      «to» := fresh 1
      value := 1
      data := { contract_address := strategy.router_address
                method :=
                  CallData.swap_exact_tokens_for_tokens
                    strategy.pair.token_b.amount
                    strategy.pair.token_b.amount_min
                    [strategy.base.address, strategy.pair.token_b.address]
                    safe_contract_address
                    (CURRENT_BLOCK_TIMESTAMP + 300) } },
    { operation := MultiSendOperation.CALL
      «to» := fresh 2
      value := 1
      data := { contract_address := strategy.pair.token_a.address
                method := CallData.approve strategy.router_address MAX_ALLOWANCE } },
    { operation := MultiSendOperation.CALL
      «to» := fresh 3
      value := 1
      data := { contract_address := strategy.pair.token_b.address
                method := CallData.approve strategy.router_address MAX_ALLOWANCE } },
    { operation := MultiSendOperation.CALL
      «to» := fresh 4
      value := 1
      data := { contract_address := strategy.router_address
                method :=
                  if strategy.pair.token_a.is_native then
                    CallData.add_liquidity_ETH
                      strategy.pair.token_b.address
                      strategy.pair.token_b.amount
                      (int_times_0_99 strategy.pair.token_b.amount_min)
                      (int_times_0_99 strategy.pair.token_a.amount_min)
                      safe_contract_address
                      (CURRENT_BLOCK_TIMESTAMP + 300)
                  else
                    CallData.add_liquidity
                      strategy.pair.token_a.address
                      strategy.pair.token_b.address
                      strategy.pair.token_a.amount
                      strategy.pair.token_b.amount
                      (int_times_0_99 strategy.pair.token_a.amount_min)
                      (int_times_0_99 strategy.pair.token_b.amount_min)
                      safe_contract_address
                      (CURRENT_BLOCK_TIMESTAMP + 300) } } ]

/-- The `multi_send_txs` list built by
`ExitPoolTransactionHashBehaviour.async_act`, in program order: remove
liquidity (native variant when `token_a.is_native`), zero the allowance of
token a, zero the allowance of token b, swap token a back, swap token b
back. -/
def exit_pool_multi_send_txs (safe_contract_address : String) (strategy : Strategy)
    (fresh : Nat → String) : List MultiSendTx :=
  [ { operation := MultiSendOperation.CALL
      «to» := fresh 0
      value := 1
      data := { contract_address := strategy.router_address
                method :=
                  if strategy.pair.token_a.is_native then
                    CallData.remove_liquidity_ETH
                      strategy.pair.token_b.address
                      strategy.liquidity_to_remove
                      strategy.pair.token_b.amount_min
                      strategy.pair.token_a.amount_min
                      safe_contract_address
                      (CURRENT_BLOCK_TIMESTAMP + 300)
                  else
                    CallData.remove_liquidity
                      strategy.pair.token_a.address
                      strategy.pair.token_b.address
                      strategy.liquidity_to_remove
                      strategy.pair.token_a.amount_min
                      strategy.pair.token_b.amount_min
                      safe_contract_address
                      (CURRENT_BLOCK_TIMESTAMP + 300) } },
    { operation := MultiSendOperation.CALL
      «to» := fresh 1
      value := 1
      data := { contract_address := strategy.pair.token_a.address
                method := CallData.approve strategy.router_address 0 } },
    { operation := MultiSendOperation.CALL
      «to» := fresh 2
      value := 1
      data := { contract_address := strategy.pair.token_b.address
                method := CallData.approve strategy.router_address 0 } },
    { operation := MultiSendOperation.CALL
      «to» := fresh 3
      value := 1
      data := { contract_address := strategy.router_address
                method :=
                  if strategy.pair.token_a.is_native then
                    CallData.swap_exact_ETH_for_tokens
                      strategy.pair.token_a.amount_min
                      [strategy.pair.token_a.address, strategy.base.address]
                      safe_contract_address
                      (CURRENT_BLOCK_TIMESTAMP + 300)
                  else
                    CallData.swap_exact_tokens_for_tokens
                      strategy.pair.token_a.amount
                      strategy.pair.token_a.amount_min
                      [strategy.pair.token_a.address, strategy.base.address]
                      safe_contract_address
                      (CURRENT_BLOCK_TIMESTAMP + 300) } },
    { operation := MultiSendOperation.CALL
      «to» := fresh 4
      value := 1
      data := { contract_address := strategy.router_address
                method :=
                  CallData.swap_exact_tokens_for_tokens
                    strategy.pair.token_b.amount
                    strategy.pair.token_b.amount_min
                    [strategy.pair.token_b.address, strategy.base.address]
                    safe_contract_address
                    (CURRENT_BLOCK_TIMESTAMP + 300) } } ]

/-- The replicated `PeriodState` fields read by the embedded behaviours. -/
structure PeriodState where
  participants : List String
  most_voted_keeper_address : String
  most_voted_strategy : Strategy
  most_voted_tx_hash : String
  participant_to_signature : List (String × String)
  final_tx_hash : String
  safe_contract_address : String
  multisend_contract_address : String
deriving DecidableEq, Repr, Inhabited

/-- Arguments the tx-hash behaviours pass to the external
`get_raw_safe_transaction_hash` encoder of the Gnosis safe contract; the
`data` field stands for the multisend encoding (`get_tx_data`, a pure
deterministic function) of the batch. -/
structure SafeTxHashArgs where
  to_address : String
  value : Nat
  data : List MultiSendTx
deriving DecidableEq, Repr, Inhabited

/-- The safe-transaction-hash request built by
`EnterPoolTransactionHashBehaviour.async_act` (lines 580-599 of the source):
`to_address` is the multisend contract address, `value` is `ETHER_VALUE`, and
`data` is the multisend encoding of the batch. -/
def enter_pool_tx_hash_args (state : PeriodState) (fresh : Nat → String) : SafeTxHashArgs :=
  { to_address := state.multisend_contract_address
    value := ETHER_VALUE
    data := enter_pool_multi_send_txs state.safe_contract_address
      state.most_voted_strategy fresh }

/-- The safe-transaction-hash request built by
`ExitPoolTransactionHashBehaviour.async_act` (lines 858-877 of the source). -/
def exit_pool_tx_hash_args (state : PeriodState) (fresh : Nat → String) : SafeTxHashArgs :=
  { to_address := state.multisend_contract_address
    value := ETHER_VALUE
    data := exit_pool_multi_send_txs state.safe_contract_address
      state.most_voted_strategy fresh }

/-- Value of a single hexadecimal digit character, `none` when the character
is not a hex digit (as `binascii.unhexlify` rejects it). -/
def hex_digit_value (c : Char) : Option Nat :=
  let n := c.toNat
  if 48 ≤ n ∧ n ≤ 57 then some (n - 48)
  else if 97 ≤ n ∧ n ≤ 102 then some (n - 97 + 10)
  else if 65 ≤ n ∧ n ≤ 70 then some (n - 65 + 10)
  else none

/-- Embedding of `binascii.unhexlify` on a character list: decodes pairs of
hex digits into bytes, failing on odd length or a non-hex character. -/
def unhexlify : List Char → Option (List Nat)
  | [] => some []
  | [_] => none
  | c1 :: c2 :: rest =>
    match hex_digit_value c1, hex_digit_value c2, unhexlify rest with
    | some hi, some lo, some bs => some ((16 * hi + lo) :: bs)
    | _, _, _ => none

/-- The message and mode of a `_send_signing_request` call. -/
structure SigningRequest where
  message : List Nat
  is_deprecated_mode : Bool
deriving DecidableEq, Repr, Inhabited

/-- A `SignaturePayload(sender, signature)`. -/
structure SignaturePayload where
  sender : String
  signature : String
deriving DecidableEq, Repr, Inhabited

/-- Embedding of `TransactionSignatureBaseBehaviour._get_safe_tx_signature`:
decode the first 64 characters of the agreed transaction hash into raw bytes,
request a signature over those bytes with `is_deprecated_mode=True`, and
return the signing request together with the signature with its first two
characters (the leading `0x`) removed.  `sign` is the external signing
service; `none` models the `binascii.Error` raised on a malformed hash. -/
def get_safe_tx_signature (most_voted_tx_hash : String)
    (sign : SigningRequest → String) : Option (SigningRequest × String) :=
  match unhexlify (most_voted_tx_hash.toList.take 64) with
  | none => none
  | some safe_tx_hash_bytes =>
    let request : SigningRequest := ⟨safe_tx_hash_bytes, true⟩
    let signature_hex := (sign request).drop 2
    some (request, signature_hex)

/-- Embedding of `TransactionSignatureBaseBehaviour.async_act`: the signing
request issued and the `SignaturePayload` submitted for the round. -/
def signature_async_act (state : PeriodState) (agent_address : String)
    (sign : SigningRequest → String) : Option (SigningRequest × SignaturePayload) :=
  match get_safe_tx_signature state.most_voted_tx_hash sign with
  | none => none
  | some (request, signature_hex) => some (request, ⟨agent_address, signature_hex⟩)

/-- Arguments of the `get_raw_safe_transaction` contract call built by
`TransactionSendBaseBehaviour._send_safe_transaction`. -/
structure RawSafeTxRequest where
  contract_address : String
  sender_address : String
  owners : List String
  to_address : String
  signatures_by_owner : List (String × String)
deriving DecidableEq, Repr, Inhabited

/-- The request `_send_safe_transaction` builds (lines 216-230 of the
source): note `to_address` is the invoking agent's own address. -/
def send_safe_transaction_request (state : PeriodState) (agent_address : String) :
    RawSafeTxRequest :=
  { contract_address := state.safe_contract_address
    sender_address := agent_address
    owners := state.participants
    to_address := agent_address
    signatures_by_owner := state.participant_to_signature }

/-- A `FinalizationTxPayload(sender, tx_hash)`. -/
structure FinalizationTxPayload where
  sender : String
  tx_hash : String
deriving DecidableEq, Repr, Inhabited

/-- Observable steps of a send-class phase run. -/
inductive SendAction where
  | wait_until_round_end
  | broadcast (request : RawSafeTxRequest)
  | submit_payload (payload : FinalizationTxPayload)
  | raise_runtime_error (message : String)
  | set_done
deriving DecidableEq, Repr, Inhabited

/-- Whether a step broadcasts a transaction. -/
def SendAction.is_broadcast : SendAction → Bool
  | SendAction.broadcast _ => true
  | _ => false

/-- Whether a step submits a payload for the round. -/
def SendAction.is_submit_payload : SendAction → Bool
  | SendAction.submit_payload _ => true
  | _ => false

/-- Embedding of `TransactionSendBaseBehaviour._not_sender_act`: wait for the
round to end, then finish. -/
def not_sender_act : List SendAction :=
  [SendAction.wait_until_round_end, SendAction.set_done]

/-- Embedding of `TransactionSendBaseBehaviour._sender_act`:
`broadcast_result` is what `send_raw_transaction` returns for the broadcast
of the built safe transaction; on `none` the behaviour raises
`RuntimeError("This needs to be fixed!")`, otherwise it submits a
`FinalizationTxPayload` and waits for the round to end. -/
def sender_act (state : PeriodState) (agent_address : String)
    (broadcast_result : Option String) : List SendAction :=
  let request := send_safe_transaction_request state agent_address
  match broadcast_result with
  | none =>
    [SendAction.broadcast request,
     SendAction.raise_runtime_error "This needs to be fixed!"]
  | some tx_hash =>
    [SendAction.broadcast request,
     SendAction.submit_payload ⟨agent_address, tx_hash⟩,
     SendAction.wait_until_round_end,
     SendAction.set_done]

/-- Embedding of `TransactionSendBaseBehaviour.async_act`: the non-sender
path when the agent's address differs from the agreed keeper, the sender
path otherwise. -/
def send_async_act (state : PeriodState) (agent_address : String)
    (broadcast_result : Option String) : List SendAction :=
  if agent_address ≠ state.most_voted_keeper_address then not_sender_act
  else sender_act state agent_address broadcast_result

/-- A transaction receipt as classified by the external chain RPC; the
`settled` field is the outcome of `EthereumApi.is_transaction_settled`, which
is external to this repository and modelled from the spec interface
`isSettled(receipt) -> bool`. -/
structure TransactionReceipt where
  settled : Bool
deriving DecidableEq, Repr, Inhabited

/-- Chain-level settlement classification of a receipt (see
`TransactionReceipt`). -/
def is_transaction_settled (receipt : TransactionReceipt) : Bool :=
  receipt.settled

/-- Arguments of the `verify_tx` contract call built by
`TransactionValidationBaseBehaviour.has_transaction_been_sent` (lines
284-296 of the source): note `to_address` is the invoking agent's own
address. -/
structure VerifyTxRequest where
  contract_address : String
  tx_hash : String
  owners : List String
  to_address : String
  signatures_by_owner : List (String × String)
deriving DecidableEq, Repr, Inhabited

/-- The `verify_tx` request over the participants, their collected
signatures, and the recipient. -/
def verify_tx_request (state : PeriodState) (agent_address : String) : VerifyTxRequest :=
  { contract_address := state.safe_contract_address
    tx_hash := state.final_tx_hash
    owners := state.participants
    to_address := agent_address
    signatures_by_owner := state.participant_to_signature }

/-- Response of the `verify_tx` contract call: a `STATE` performative
carrying the `verified` boolean, or any other performative. -/
inductive ContractApiResponse where
  | state (verified : Bool)
  | other
deriving DecidableEq, Repr, Inhabited

/-- Embedding of `TransactionValidationBaseBehaviour.has_transaction_been_sent`:
`receipt` is the (possibly exhausted) result of the bounded receipt poll,
`verify` the external wallet contract's answer to a `verify_tx` request.
Returns `none` when the poll yielded no receipt, `some false` when the
receipt is not settled or the verification call fails or mismatches, and the
wallet's `verified` boolean otherwise. -/
def has_transaction_been_sent (state : PeriodState) (agent_address : String)
    (receipt : Option TransactionReceipt)
    (verify : VerifyTxRequest → ContractApiResponse) : Option Bool :=
  match receipt with
  | none => none
  | some response =>
    if !(is_transaction_settled response) then some false
    else
      match verify (verify_tx_request state agent_address) with
      | ContractApiResponse.state verified => some verified
      | ContractApiResponse.other => some false

/-- The strategy dict returned by `get_strategy_update` in the source: leg A
is the native FTM with amount 1 and minimum 1, leg B is BOO with amount 1 and
minimum 1. -/
def get_strategy_update : Strategy :=
  { action := StrategyType.GO
    chain := "Fantom"
    base := { address := "0xUSDT_ADDRESS", balance := 100 }
    pair := { token_a := { ticker := "FTM", address := "0xFTM_ADDRESS",
                           amount := 1, amount_min := 1, is_native := true }
              token_b := { ticker := "BOO", address := "0xBOO_ADDRESS",
                           amount := 1, amount_min := 1, is_native := false } }
    router_address := "0x0000000000000000000000000000"
    liquidity_to_remove := 1 }

/-- A concrete period state with four participants and the sample strategy,
used to evaluate the behaviours on concrete inputs. -/
def sample_period_state : PeriodState :=
  { participants := ["0xAGENT1", "0xAGENT2", "0xAGENT3", "0xAGENT4"]
    most_voted_keeper_address := "0xAGENT1"
    most_voted_strategy := get_strategy_update
    most_voted_tx_hash :=
      "aaaaaaaaaaaaaaaaaaaaaaaaaaaaaaaaaaaaaaaaaaaaaaaaaaaaaaaaaaaaaaaa"
    participant_to_signature :=
      [("0xAGENT1", "sig1"), ("0xAGENT2", "sig2"),
       ("0xAGENT3", "sig3"), ("0xAGENT4", "sig4")]
    final_tx_hash := "0xFINAL_TX_HASH"
    safe_contract_address := "0xSAFE_CONTRACT"
    multisend_contract_address := "0xMULTISEND_CONTRACT" }

/-- Path of a swap call, `none` for non-swap calls. -/
def swap_path : CallData → Option (List String)
  | CallData.swap_exact_tokens_for_ETH _ _ path _ _ => some path
  | CallData.swap_exact_tokens_for_tokens _ _ path _ _ => some path
  | CallData.swap_exact_ETH_for_tokens _ path _ _ => some path
  | _ => none

/-- Whether a call is one of the native-asset swap variants. -/
def is_native_swap_variant : CallData → Bool
  | CallData.swap_exact_tokens_for_ETH _ _ _ _ _ => true
  | CallData.swap_exact_ETH_for_tokens _ _ _ _ => true
  | _ => false

/-- Allowance value of an `approve` call, `none` for other calls. -/
def approve_value : CallData → Option Nat
  | CallData.approve _ value => some value
  | _ => none

/-- Whether a call adds liquidity. -/
def is_add_liquidity : CallData → Bool
  | CallData.add_liquidity_ETH _ _ _ _ _ _ => true
  | CallData.add_liquidity _ _ _ _ _ _ _ _ => true
  | _ => false

/-- Whether a call removes liquidity. -/
def is_remove_liquidity : CallData → Bool
  | CallData.remove_liquidity_ETH _ _ _ _ _ _ => true
  | CallData.remove_liquidity _ _ _ _ _ _ _ => true
  | _ => false

/-- Minimum amounts of an add-liquidity call as the pair
(leg A minimum, leg B minimum); in the native variant the leg A minimum is
`amount_ETH_min` and the leg B minimum is `amount_token_min`. -/
def add_liquidity_mins : CallData → Option (Nat × Nat)
  | CallData.add_liquidity_ETH _ _ amount_token_min amount_ETH_min _ _ =>
    some (amount_ETH_min, amount_token_min)
  | CallData.add_liquidity _ _ _ _ amount_a_min amount_b_min _ _ =>
    some (amount_a_min, amount_b_min)
  | _ => none

/-- Minimum amounts of a remove-liquidity call as the pair
(leg A minimum, leg B minimum). -/
def remove_liquidity_mins : CallData → Option (Nat × Nat)
  | CallData.remove_liquidity_ETH _ _ amount_token_min amount_ETH_min _ _ =>
    some (amount_ETH_min, amount_token_min)
  | CallData.remove_liquidity _ _ _ amount_a_min amount_b_min _ _ =>
    some (amount_a_min, amount_b_min)
  | _ => none

/-- Twice the byte count of a successful `unhexlify` equals the character
count of the input. -/
theorem unhexlify_length : ∀ (cs : List Char) (bs : List Nat),
    unhexlify cs = some bs → 2 * bs.length = cs.length
  | [], bs, h => by
    simp [unhexlify] at h
    simp [← h]
  | [_], bs, h => by
    simp [unhexlify] at h
  | c1 :: c2 :: rest, bs, h => by
    rcases h1 : hex_digit_value c1 with _ | hi <;>
      rcases h2 : hex_digit_value c2 with _ | lo <;>
        rcases h3 : unhexlify rest with _ | tail <;>
          simp [unhexlify, h1, h2, h3] at h
    have ih := unhexlify_length rest tail h3
    simp [← h, List.length_cons]
    omega

/-- Truncated multiplication by 0.99 never exceeds the original amount. -/
theorem int_times_0_99_le (m : Nat) : int_times_0_99 m ≤ m := by
  unfold int_times_0_99
  omega

/-- C1: the batch assembly is not a function of the agreed inputs alone.
Each sub-call's `to` field is the address of a key pair freshly created by
`crypto_registry.make(EthereumCrypto.identifier)`, so two runs of the
enter-pool (or exit-pool) tx-hash behaviour over the same agreed strategy,
safe address and multisend address, whose fresh-key creations yield
different addresses, produce different multisend batches and different
safe-transaction-hash requests — refuting byte-identical batches and
identical hashes across independent runs. -/
theorem tx_assembly_depends_on_fresh_key_addresses :
    enter_pool_tx_hash_args sample_period_state (fun _ => "0xKEY_RUN_1") ≠
      enter_pool_tx_hash_args sample_period_state (fun _ => "0xKEY_RUN_2") ∧
    exit_pool_tx_hash_args sample_period_state (fun _ => "0xKEY_RUN_1") ≠
      exit_pool_tx_hash_args sample_period_state (fun _ => "0xKEY_RUN_2") := by
  constructor <;> decide

/-- C2: in a send-class phase, a participant whose address differs from the
agreed keeper takes the non-sender path: its run is exactly
wait-until-round-end followed by finishing, and contains no broadcast
step. -/
theorem non_keeper_never_broadcasts (state : PeriodState) (agent_address : String)
    (broadcast_result : Option String)
    (h : agent_address ≠ state.most_voted_keeper_address) :
    send_async_act state agent_address broadcast_result =
      [SendAction.wait_until_round_end, SendAction.set_done] ∧
    (send_async_act state agent_address broadcast_result).all
      (fun a => !a.is_broadcast) = true := by
  have hrun : send_async_act state agent_address broadcast_result =
      not_sender_act := by
    simp [send_async_act, h]
  rw [hrun]
  exact ⟨rfl, rfl⟩

/-- C2 witness: agent `0xAGENT2` is not the agreed keeper `0xAGENT1` and
only waits. -/
theorem non_keeper_never_broadcasts_witness :
    send_async_act sample_period_state "0xAGENT2" (some "0xTX") =
      [SendAction.wait_until_round_end, SendAction.set_done] ∧
    (send_async_act sample_period_state "0xAGENT2" (some "0xTX")).all
      (fun a => !a.is_broadcast) = true :=
  non_keeper_never_broadcasts sample_period_state "0xAGENT2" (some "0xTX")
    (by decide)

/-- C3: the settlement check is three-tiered: it yields `none` exactly when
the receipt poll was exhausted; `some false` whenever a receipt exists but
chain-level settlement failed; and `some true` exactly when settlement
succeeded and the wallet contract's independent verification over the
participants, their collected signatures and the recipient passed. -/
theorem has_transaction_been_sent_three_tier (state : PeriodState)
    (agent_address : String) (receipt : Option TransactionReceipt)
    (verify : VerifyTxRequest → ContractApiResponse) :
    (has_transaction_been_sent state agent_address receipt verify = none ↔
      receipt = none) ∧
    (∀ r, receipt = some r → is_transaction_settled r = false →
      has_transaction_been_sent state agent_address receipt verify = some false) ∧
    (has_transaction_been_sent state agent_address receipt verify = some true ↔
      ∃ r, receipt = some r ∧ is_transaction_settled r = true ∧
        verify (verify_tx_request state agent_address) =
          ContractApiResponse.state true) := by
  rcases receipt with _ | r
  · simp [has_transaction_been_sent]
  · cases hs : is_transaction_settled r
    · simp [has_transaction_been_sent, hs]
    · rcases hv : verify (verify_tx_request state agent_address) with v | _ <;>
        simp [has_transaction_been_sent, hs, hv]

/-- C3 witness: with the receipt poll exhausted the check yields `none`. -/
theorem has_transaction_been_sent_three_tier_witness :
    has_transaction_been_sent sample_period_state "0xAGENT1" none
      (fun _ => ContractApiResponse.state true) = none :=
  (has_transaction_been_sent_three_tier sample_period_state "0xAGENT1" none
    (fun _ => ContractApiResponse.state true)).1.mpr rfl

/-- C4: with four participants and the sample strategy (leg A native with
amount 1 and minimum 1, leg B with amount 1 and minimum 1), the enter-pool
batch has exactly five sub-calls, in order: swap involving leg A (native
variant), swap involving leg B, approval for leg A, approval for leg B,
native add-liquidity. -/
theorem enter_pool_batch_scenario_five_calls (fresh : Nat → String) :
    sample_period_state.participants.length = 4 ∧
    (enter_pool_tx_hash_args sample_period_state fresh).data.map
        (fun t => t.data) =
      [ { contract_address := "0x0000000000000000000000000000"
          method := CallData.swap_exact_tokens_for_ETH 1 1
            ["0xUSDT_ADDRESS", "0xFTM_ADDRESS"] "0xSAFE_CONTRACT" 300 },
        { contract_address := "0x0000000000000000000000000000"
          method := CallData.swap_exact_tokens_for_tokens 1 1
            ["0xUSDT_ADDRESS", "0xBOO_ADDRESS"] "0xSAFE_CONTRACT" 300 },
        { contract_address := "0xFTM_ADDRESS"
          method := CallData.approve "0x0000000000000000000000000000"
            MAX_ALLOWANCE },
        { contract_address := "0xBOO_ADDRESS"
          method := CallData.approve "0x0000000000000000000000000000"
            MAX_ALLOWANCE },
        { contract_address := "0x0000000000000000000000000000"
          method := CallData.add_liquidity_ETH "0xBOO_ADDRESS" 1 0 0
            "0xSAFE_CONTRACT" 300 } ] :=
  ⟨rfl, rfl⟩

/-- C5 counterexample: on the enter path at the sample strategy the first
sub-call's swap path is `[base, leg A]` — from the base asset's address to
leg A's token address — not `[leg A, base]` as the claim states, and these
differ. -/
theorem enter_swap_path_not_leg_to_base :
    ((enter_pool_multi_send_txs "0xSAFE_CONTRACT" get_strategy_update
        (fun _ => "0xKEY")).map (fun t => swap_path t.data.method)) =
      [some ["0xUSDT_ADDRESS", "0xFTM_ADDRESS"],
       some ["0xUSDT_ADDRESS", "0xBOO_ADDRESS"], none, none, none] ∧
    (["0xUSDT_ADDRESS", "0xFTM_ADDRESS"] : List String) ≠
      ["0xFTM_ADDRESS", "0xUSDT_ADDRESS"] := by
  exact ⟨rfl, by decide⟩

/-- C5 amended: on the enter path the first two sub-calls are swaps whose
paths lead from the base asset's address to leg A's and leg B's token
addresses respectively (the native-asset swap variant used exactly when leg
A is native); the remaining sub-calls are not swaps. -/
theorem enter_swap_paths_base_to_leg (strategy : Strategy)
    (safe_contract_address : String) (fresh : Nat → String) :
    (enter_pool_multi_send_txs safe_contract_address strategy fresh).map
        (fun t => swap_path t.data.method) =
      [some [strategy.base.address, strategy.pair.token_a.address],
       some [strategy.base.address, strategy.pair.token_b.address],
       none, none, none] ∧
    (enter_pool_multi_send_txs safe_contract_address strategy fresh).map
        (fun t => is_native_swap_variant t.data.method) =
      [strategy.pair.token_a.is_native, false, false, false, false] := by
  cases hn : strategy.pair.token_a.is_native <;>
    simp [enter_pool_multi_send_txs, swap_path, is_native_swap_variant, hn]

/-- C6 counterexample: at the sample strategy the exit batch targets, in
order, the router, leg A's token, leg B's token, the router and the router,
while the reversed enter batch targets the router, leg B's token, leg A's
token, the router and the router; since mirroring a sub-call (reversing its
swap direction or zeroing its allowance) preserves which contract it
targets, the exit order is not the exact mirror of the enter order. -/
theorem exit_order_not_exact_mirror :
    ((exit_pool_multi_send_txs "0xSAFE_CONTRACT" get_strategy_update
        (fun _ => "0xKEY")).map (fun t => t.data.contract_address)) =
      ["0x0000000000000000000000000000", "0xFTM_ADDRESS", "0xBOO_ADDRESS",
       "0x0000000000000000000000000000", "0x0000000000000000000000000000"] ∧
    ((enter_pool_multi_send_txs "0xSAFE_CONTRACT" get_strategy_update
        (fun _ => "0xKEY")).map (fun t => t.data.contract_address)).reverse =
      ["0x0000000000000000000000000000", "0xBOO_ADDRESS", "0xFTM_ADDRESS",
       "0x0000000000000000000000000000", "0x0000000000000000000000000000"] ∧
    ((exit_pool_multi_send_txs "0xSAFE_CONTRACT" get_strategy_update
        (fun _ => "0xKEY")).map (fun t => t.data.contract_address)) ≠
      ((enter_pool_multi_send_txs "0xSAFE_CONTRACT" get_strategy_update
        (fun _ => "0xKEY")).map (fun t => t.data.contract_address)).reverse := by
  refine ⟨rfl, rfl, ?_⟩
  decide

/-- C6 amended: the exit batch reverses the enter batch's stages — the
liquidity call comes first, then the two approvals, then the two swaps — but
within the approval and swap stages leg A still precedes leg B; each exit
swap's path is the reverse of the corresponding enter swap's path, and each
exit approval sets the allowance to 0 where the corresponding enter approval
sets it to `MAX_ALLOWANCE`. -/
theorem exit_order_stagewise_mirror (strategy : Strategy)
    (safe_contract_address : String) (fresh : Nat → String) :
    (enter_pool_multi_send_txs safe_contract_address strategy fresh).map
        (fun t => t.data.contract_address) =
      [strategy.router_address, strategy.router_address,
       strategy.pair.token_a.address, strategy.pair.token_b.address,
       strategy.router_address] ∧
    (exit_pool_multi_send_txs safe_contract_address strategy fresh).map
        (fun t => t.data.contract_address) =
      [strategy.router_address, strategy.pair.token_a.address,
       strategy.pair.token_b.address, strategy.router_address,
       strategy.router_address] ∧
    (enter_pool_multi_send_txs safe_contract_address strategy fresh).map
        (fun t => approve_value t.data.method) =
      [none, none, some MAX_ALLOWANCE, some MAX_ALLOWANCE, none] ∧
    (exit_pool_multi_send_txs safe_contract_address strategy fresh).map
        (fun t => approve_value t.data.method) =
      [none, some 0, some 0, none, none] ∧
    (enter_pool_multi_send_txs safe_contract_address strategy fresh).map
        (fun t => swap_path t.data.method) =
      [some [strategy.base.address, strategy.pair.token_a.address],
       some [strategy.base.address, strategy.pair.token_b.address],
       none, none, none] ∧
    (exit_pool_multi_send_txs safe_contract_address strategy fresh).map
        (fun t => swap_path t.data.method) =
      [none, none, none,
       some [strategy.pair.token_a.address, strategy.base.address],
       some [strategy.pair.token_b.address, strategy.base.address]] ∧
    (enter_pool_multi_send_txs safe_contract_address strategy fresh).map
        (fun t => is_add_liquidity t.data.method) =
      [false, false, false, false, true] ∧
    (exit_pool_multi_send_txs safe_contract_address strategy fresh).map
        (fun t => is_remove_liquidity t.data.method) =
      [true, false, false, false, false] := by
  cases hn : strategy.pair.token_a.is_native <;>
    simp [enter_pool_multi_send_txs, exit_pool_multi_send_txs, swap_path,
      approve_value, is_add_liquidity, is_remove_liquidity, hn]

/-- C7: the add-liquidity sub-call's minimum amounts are the agreed minimum
amounts times 0.99 truncated toward zero, hence they do not exceed the
corresponding desired amounts whenever the agreed minimums do not; the
remove-liquidity sub-call's minimum amounts equal the agreed minimums
exactly, with no tolerance applied. -/
theorem liquidity_min_amounts (strategy : Strategy)
    (safe_contract_address : String) (fresh : Nat → String)
    (hA : strategy.pair.token_a.amount_min ≤ strategy.pair.token_a.amount)
    (hB : strategy.pair.token_b.amount_min ≤ strategy.pair.token_b.amount) :
    (enter_pool_multi_send_txs safe_contract_address strategy fresh).map
        (fun t => add_liquidity_mins t.data.method) =
      [none, none, none, none,
       some (int_times_0_99 strategy.pair.token_a.amount_min,
             int_times_0_99 strategy.pair.token_b.amount_min)] ∧
    int_times_0_99 strategy.pair.token_a.amount_min ≤
      strategy.pair.token_a.amount ∧
    int_times_0_99 strategy.pair.token_b.amount_min ≤
      strategy.pair.token_b.amount ∧
    (exit_pool_multi_send_txs safe_contract_address strategy fresh).map
        (fun t => remove_liquidity_mins t.data.method) =
      [some (strategy.pair.token_a.amount_min,
             strategy.pair.token_b.amount_min),
       none, none, none, none] := by
  refine ⟨?_, le_trans (int_times_0_99_le _) hA,
    le_trans (int_times_0_99_le _) hB, ?_⟩ <;>
    cases hn : strategy.pair.token_a.is_native <;>
      simp [enter_pool_multi_send_txs, exit_pool_multi_send_txs,
        add_liquidity_mins, remove_liquidity_mins, hn]

/-- C7 witness: at the sample strategy (minimums 1, amounts 1) the deposit
minimums are `int(1 * 0.99) = 0` and the withdrawal minimums are exactly 1. -/
theorem liquidity_min_amounts_witness :
    (enter_pool_multi_send_txs "0xSAFE_CONTRACT" get_strategy_update
        (fun _ => "0xKEY")).map (fun t => add_liquidity_mins t.data.method) =
      [none, none, none, none,
       some (int_times_0_99 get_strategy_update.pair.token_a.amount_min,
             int_times_0_99 get_strategy_update.pair.token_b.amount_min)] ∧
    int_times_0_99 get_strategy_update.pair.token_a.amount_min ≤
      get_strategy_update.pair.token_a.amount ∧
    int_times_0_99 get_strategy_update.pair.token_b.amount_min ≤
      get_strategy_update.pair.token_b.amount ∧
    (exit_pool_multi_send_txs "0xSAFE_CONTRACT" get_strategy_update
        (fun _ => "0xKEY")).map (fun t => remove_liquidity_mins t.data.method) =
      [some (get_strategy_update.pair.token_a.amount_min,
             get_strategy_update.pair.token_b.amount_min),
       none, none, none, none] :=
  liquidity_min_amounts get_strategy_update "0xSAFE_CONTRACT"
    (fun _ => "0xKEY") (by decide) (by decide)

/-- C8: the signature behaviour signs exactly the 32 bytes obtained by
decoding the first 64 hexadecimal characters of the agreed transaction hash
as raw bytes, in the legacy (deprecated) signing mode, and submits the
signature with its leading `0x` removed as the participant's payload. -/
theorem signature_signs_first_32_bytes (state : PeriodState)
    (agent_address : String) (sign : SigningRequest → String)
    (safe_tx_hash_bytes : List Nat)
    (hdec : unhexlify (state.most_voted_tx_hash.toList.take 64) =
      some safe_tx_hash_bytes)
    (hlen : 64 ≤ state.most_voted_tx_hash.toList.length) :
    signature_async_act state agent_address sign =
      some (⟨safe_tx_hash_bytes, true⟩,
            ⟨agent_address, (sign ⟨safe_tx_hash_bytes, true⟩).drop 2⟩) ∧
    safe_tx_hash_bytes.length = 32 := by
  constructor
  · have hdec' : unhexlify (List.take 64 state.most_voted_tx_hash.data) =
        some safe_tx_hash_bytes := hdec
    simp [signature_async_act, get_safe_tx_signature, hdec']
  · have h2 := unhexlify_length _ _ hdec
    rw [List.length_take, Nat.min_eq_left hlen] at h2
    omega

/-- C8 witness: at a 64-character hash of `a` digits the signed message is
the 32 bytes `0xaa` and the submitted signature drops the `0x` of the
signer's answer. -/
theorem signature_signs_first_32_bytes_witness :
    signature_async_act sample_period_state "0xAGENT1"
        (fun _ => "0xSIGNATURE") =
      some (⟨List.replicate 32 170, true⟩,
            ⟨"0xAGENT1", (("0xSIGNATURE" : String).drop 2)⟩) ∧
    (List.replicate 32 170 : List Nat).length = 32 :=
  signature_signs_first_32_bytes sample_period_state "0xAGENT1"
    (fun _ => "0xSIGNATURE") (List.replicate 32 170) (by decide) (by decide)

/-- C9: on the sender path, a broadcast that returns no transaction hash
makes the behaviour raise `RuntimeError` immediately after the broadcast —
no payload is submitted and nothing is retried — while a broadcast that
returns a hash leads to exactly one `FinalizationTxPayload` submission for
the round. -/
theorem sender_broadcast_failure_raises (state : PeriodState)
    (agent_address : String) (tx_hash : String)
    (h : agent_address = state.most_voted_keeper_address) :
    send_async_act state agent_address none =
      [SendAction.broadcast (send_safe_transaction_request state agent_address),
       SendAction.raise_runtime_error "This needs to be fixed!"] ∧
    (send_async_act state agent_address none).all
      (fun a => !a.is_submit_payload) = true ∧
    send_async_act state agent_address (some tx_hash) =
      [SendAction.broadcast (send_safe_transaction_request state agent_address),
       SendAction.submit_payload ⟨agent_address, tx_hash⟩,
       SendAction.wait_until_round_end, SendAction.set_done] := by
  subst h
  refine ⟨?_, ?_, ?_⟩ <;>
    simp [send_async_act, sender_act, SendAction.is_submit_payload]

/-- C9 witness: keeper `0xAGENT1` raises on a hashless broadcast and submits
the payload when a hash is returned. -/
theorem sender_broadcast_failure_raises_witness :
    send_async_act sample_period_state "0xAGENT1" none =
      [SendAction.broadcast
         (send_safe_transaction_request sample_period_state "0xAGENT1"),
       SendAction.raise_runtime_error "This needs to be fixed!"] ∧
    (send_async_act sample_period_state "0xAGENT1" none).all
      (fun a => !a.is_submit_payload) = true ∧
    send_async_act sample_period_state "0xAGENT1" (some "0xTX") =
      [SendAction.broadcast
         (send_safe_transaction_request sample_period_state "0xAGENT1"),
       SendAction.submit_payload ⟨"0xAGENT1", "0xTX"⟩,
       SendAction.wait_until_round_end, SendAction.set_done] :=
  sender_broadcast_failure_raises sample_period_state "0xAGENT1" "0xTX" rfl

/-- C10: the safe transaction the keeper builds and the wallet verification
call both use the invoking agent's own address as `to_address`, while the
agreed hash was computed with the multisend contract address as
`to_address`; whenever the agent's address differs from the multisend
address, the recipient used at execution and verification time differs from
the recipient the agreed hash was computed over. -/
theorem recipient_differs_from_hashed_recipient (state : PeriodState)
    (agent_address : String) (fresh : Nat → String)
    (h : agent_address ≠ state.multisend_contract_address) :
    (send_safe_transaction_request state agent_address).to_address =
      agent_address ∧
    (verify_tx_request state agent_address).to_address = agent_address ∧
    (enter_pool_tx_hash_args state fresh).to_address =
      state.multisend_contract_address ∧
    (exit_pool_tx_hash_args state fresh).to_address =
      state.multisend_contract_address ∧
    (send_safe_transaction_request state agent_address).to_address ≠
      (enter_pool_tx_hash_args state fresh).to_address ∧
    (verify_tx_request state agent_address).to_address ≠
      (exit_pool_tx_hash_args state fresh).to_address :=
  ⟨rfl, rfl, rfl, rfl, h, h⟩

/-- C10 witness: agent `0xAGENT1` differs from the multisend contract
address, so the executed and verified recipient differs from the hashed
one. -/
theorem recipient_differs_from_hashed_recipient_witness :
    (send_safe_transaction_request sample_period_state "0xAGENT1").to_address =
      "0xAGENT1" ∧
    (verify_tx_request sample_period_state "0xAGENT1").to_address =
      "0xAGENT1" ∧
    (enter_pool_tx_hash_args sample_period_state
        (fun _ => "0xKEY")).to_address =
      sample_period_state.multisend_contract_address ∧
    (exit_pool_tx_hash_args sample_period_state
        (fun _ => "0xKEY")).to_address =
      sample_period_state.multisend_contract_address ∧
    (send_safe_transaction_request sample_period_state "0xAGENT1").to_address ≠
      (enter_pool_tx_hash_args sample_period_state
        (fun _ => "0xKEY")).to_address ∧
    (verify_tx_request sample_period_state "0xAGENT1").to_address ≠
      (exit_pool_tx_hash_args sample_period_state
        (fun _ => "0xKEY")).to_address :=
  recipient_differs_from_hashed_recipient sample_period_state "0xAGENT1"
    (fun _ => "0xKEY") (by decide)

end LiquidityProvision
